import Mathlib

/-!
Verification of the ES-to-SLS migration orchestrator
(`aliyun/log/es_migration/migration_manager.py`).

The embedding below models, as pure Lean functions:
* `MigrationConfig.__init__` together with `_load_cache` (configuration
  override semantics over an existing cache);
* `MigrationManager._discover_tasks` (shard selection) and
  `MigrationManager._handle_cache` (ledger reconciliation);
* the aggregation loop of `MigrationManager.migrate` and its pool-size
  computation;
* `_migration_worker` (cancellation short-circuit), with the effectful
  client constructions recorded as an explicit trace.

External collaborators that are not part of the orchestrator source
(the `Checkpoint` status enumeration and the logstore mapping resolver)
are modelled from the spec where noted: the resolver is an abstract total
function from index names to logstore names, which the spec requires to be
deterministic and total.
-/

namespace ESMigration

/-- A shard entry as returned by the source topology query
(`self._es.search_shards(indexes)`); one `item` of one `shard` group in
`data['shards']`. -/
structure ShardItem where
  index : String
  shard : Nat
  state : String
  primary : Bool
deriving DecidableEq, Repr

/-- A freshly discovered task before ledger reconciliation: the dict
`{'es_index': item['index'], 'es_shard': item['shard']}` built in
`_discover_tasks`. -/
structure FreshTask where
  es_index : String
  es_shard : Nat
deriving DecidableEq, Repr

/-- A full task record of the ledger (`tasks.json`): `es_index`, `es_shard`,
plus the `id` and `logstore` fields added by `_handle_cache`. -/
structure Task where
  es_index : String
  es_shard : Nat
  id : Nat
  logstore : String
deriving DecidableEq, Repr

/-- The `(task['es_index'], task['es_shard'])` key used by the
`task_map` dict comprehension in `_handle_cache`. -/
def pairOf (t : Task) : String × Nat := (t.es_index, t.es_shard)

/-- The key of a freshly discovered task, `(task['es_index'], task['es_shard'])`
as computed inside the reconciliation loop. -/
def pairOfFresh (t : FreshTask) : String × Nat := (t.es_index, t.es_shard)

/-- Python truthiness of the `indexes` configuration value in
`if not indexes and item['index'].startswith('.')`: the filter is absent
when `indexes` is `None` or the empty string. -/
def noIndexFilter : Option String → Bool
  | none => true
  | some s => s.isEmpty

/-- The per-item selection test of `_discover_tasks`: the item survives the
internal-index `continue` (taken when no filter is given and the index name
starts with `'.'`) and then satisfies
`item['state'] == 'STARTED' and item['primary']`. -/
def keepShard (indexes : Option String) (item : ShardItem) : Bool :=
  if noIndexFilter indexes && item.index.startsWith "." then false
  else item.state == "STARTED" && item.primary

/-- The double loop of `_discover_tasks` over `data['shards']`, producing the
fresh task list handed to `_handle_cache`. -/
def discoverShards (indexes : Option String) (data : List (List ShardItem)) :
    List FreshTask :=
  (data.flatten.filter (keepShard indexes)).map
    (fun item => { es_index := item.index, es_shard := item.shard })

/-- The loading of `tasks.json` in `_handle_cache`: a missing file reads as
`'[]'` (parsed to `some []` here) and corrupted content raises
`json.JSONDecodeError`, caught and replaced by the empty list (`none` here,
logged, not fatal). -/
def loadLedger : Option (List Task) → List Task
  | none => []
  | some l => l

/-- The reconciliation loop of `_handle_cache`: walk the fresh tasks; a pair
already present in `task_map` (the `keys` argument, fixed for the whole loop)
is skipped, a never-before-seen pair is appended with the running counter as
its id and the resolver's logstore. The counter advances only on append and
`task_map` is never extended during the loop, exactly as in the source. -/
def reconcile (mapping : String → String) (keys : List (String × Nat))
    (cnt : Nat) : List FreshTask → List Task
  | [] => []
  | t :: rest =>
    if pairOfFresh t ∈ keys then reconcile mapping keys cnt rest
    else { es_index := t.es_index, es_shard := t.es_shard, id := cnt,
           logstore := mapping t.es_index } :: reconcile mapping keys (cnt + 1) rest

/-- The new records appended by one `_handle_cache` run: `task_map` is built
from the old ledger and the counter starts at `len(old_tasks)`. -/
def newTasks (mapping : String → String) (old : List Task)
    (fresh : List FreshTask) : List Task :=
  reconcile mapping (old.map pairOf) old.length fresh

/-- `_handle_cache`: the ledger written back to `tasks.json` and returned,
`tasks = old_tasks + new_tasks`. The resolver `mapping` stands for
`IndexLogstoreMappings.get_logstore`; per the spec it is a deterministic
total function on index names. -/
def handle_cache (mapping : String → String) (old : List Task)
    (fresh : List FreshTask) : List Task :=
  old ++ newTasks mapping old fresh

/-- `_discover_tasks` end to end: select started primary shards (with the
internal-index exclusion) and reconcile them against the parsed ledger. -/
def discover_tasks (indexes : Option String) (data : List (List ShardItem))
    (ledger : Option (List Task)) (mapping : String → String) : List Task :=
  handle_cache mapping (loadLedger ledger) (discoverShards indexes data)

/-- A whole sequence of discovery runs over one ledger file: each run has its
own mapping rules and its own freshly discovered shard list, and folds
`_handle_cache` over the ledger. -/
def discoveryRuns (L : List Task)
    (runs : List ((String → String) × List FreshTask)) : List Task :=
  runs.foldl (fun acc r => handle_cache r.1 acc r.2) L

/-- Modelled from the spec: the `Checkpoint` status enumeration lives in
`migration_task.py`, which is not part of the orchestrator source; §3 of the
spec fixes it as the closed set `finished`, `dropped`, `failed`,
`interrupted`. -/
inductive Checkpoint where
  | finished
  | dropped
  | failed
  | interrupted
deriving DecidableEq, Repr

/-- The running tally of `migrate`: the `state` dict with keys `'total'`,
`Checkpoint.finished`, `Checkpoint.dropped`, `Checkpoint.failed`. -/
structure Tally where
  total : Nat
  finished : Nat
  dropped : Nat
  failed : Nat
deriving DecidableEq, Repr

/-- One iteration of the aggregation loop: `if res in state: state[res] += 1`.
Only the three counter keys are present in the dict, so an `interrupted`
result leaves the state unchanged. -/
def tallyStep (s : Tally) : Checkpoint → Tally
  | .finished => { s with finished := s.finished + 1 }
  | .dropped => { s with dropped := s.dropped + 1 }
  | .failed => { s with failed := s.failed + 1 }
  | .interrupted => s

/-- The aggregation loop of `migrate` over the completed futures' results,
starting from the zeroed state dict. -/
def aggregate (total : Nat) (results : List Checkpoint) : Tally :=
  results.foldl tallyStep { total := total, finished := 0, dropped := 0, failed := 0 }

/-- `migrate`, with the worker results abstracted as the list of checkpoint
statuses the completed futures deliver. `pool_size` is
`min(self._config.get('pool_size'), task_cnt)` and is passed to
`ProcessPoolExecutor(max_workers=pool_size)`; CPython's documented executor
behaviour raises `ValueError` when `max_workers` is not positive, which the
error branch models, so a run with zero tasks never reaches the loop. -/
def migrate (poolCfg : Nat) (tasks : List Task) (results : List Checkpoint) :
    Except String Tally :=
  let task_cnt := tasks.length
  let pool_size := min poolCfg task_cnt
  if pool_size = 0 then
    Except.error "ValueError: max_workers must be greater than 0"
  else
    Except.ok (aggregate task_cnt results)

/-- The observable effects of `_migration_worker` before it returns: the
construction of the destination-write client (`MigrationLogstore`), of the
source-read client (`Elasticsearch`), and the remote transfer itself
(`task.run()`). -/
inductive WorkerEffect where
  | buildLogstoreClient
  | buildEsClient
  | runTask
deriving DecidableEq, Repr

/-- `_migration_worker`: if the shutdown flag file exists the worker returns
`interrupted` at once; otherwise it builds both clients and runs the task,
whose outcome is the abstract `runResult`. The second component is the trace
of effects performed. -/
def migration_worker (shutdownFlagExists : Bool) (runResult : Checkpoint) :
    Checkpoint × List WorkerEffect :=
  if shutdownFlagExists then (Checkpoint.interrupted, [])
  else (runResult,
    [WorkerEffect.buildLogstoreClient, WorkerEffect.buildEsClient,
     WorkerEffect.runTask])

/-- The effective configuration content (`self._cont`): a JSON object whose
values may be `null`, hence every field is optional. -/
structure ConfigCont where
  endpoint : Option String
  project_name : Option String
  hosts : Option String
  indexes : Option String
  query : Option String
  time_reference : Option String
  logstore_index_mappings : Option String
  source : Option String
  topic : Option String
  pool_size : Option Nat
  batch_size : Option Nat
  wait_time_in_secs : Option Nat
  auto_creation : Option Bool
deriving DecidableEq, Repr

/-- The dict-update semantics of
`self._cont.update({k: v for k, v in cont.items() if v is not None})`
for one key: a non-`None` constructor value replaces the cached one. -/
def overrideWith (cached param : Option α) : Option α :=
  match param with
  | some v => some v
  | none => cached

/-- `MigrationConfig.__init__` when `_load_cache` finds an existing
`config.json` (`cached`): the `cont` dict built there holds every constructor
field except `time_reference`, and only its non-`None` entries override the
cached content. The constructor arguments are the fields of `p`; in Python
every parameter defaults to `None` except `auto_creation`, which defaults to
`True`. -/
def initWithCache (cached p : ConfigCont) : ConfigCont :=
  { endpoint := overrideWith cached.endpoint p.endpoint
    project_name := overrideWith cached.project_name p.project_name
    hosts := overrideWith cached.hosts p.hosts
    indexes := overrideWith cached.indexes p.indexes
    query := overrideWith cached.query p.query
    time_reference := cached.time_reference
    logstore_index_mappings :=
      overrideWith cached.logstore_index_mappings p.logstore_index_mappings
    source := overrideWith cached.source p.source
    topic := overrideWith cached.topic p.topic
    pool_size := overrideWith cached.pool_size p.pool_size
    batch_size := overrideWith cached.batch_size p.batch_size
    wait_time_in_secs := overrideWith cached.wait_time_in_secs p.wait_time_in_secs
    auto_creation := overrideWith cached.auto_creation p.auto_creation }

/-- `MigrationConfig.__init__` on a fresh cache directory: defaults are
filled for `pool_size` (10), `batch_size` (1000) and `wait_time_in_secs`
(60); all other fields are stored as given. -/
def initFresh (p : ConfigCont) : ConfigCont :=
  { p with
    pool_size := some (p.pool_size.getD 10)
    batch_size := some (p.batch_size.getD 1000)
    wait_time_in_secs := some (p.wait_time_in_secs.getD 60) }

/-- `MigrationConfig.__init__`: dispatch on whether `_load_cache` found an
existing readable `config.json`. -/
def migrationConfigInit (cacheContent : Option ConfigCont) (p : ConfigCont) :
    ConfigCont :=
  match cacheContent with
  | some cached => initWithCache cached p
  | none => initFresh p

/-- The Python default arguments of `MigrationConfig.__init__`: every field
`None` except `auto_creation=True`. -/
def pythonDefaults : ConfigCont :=
  { endpoint := none, project_name := none, hosts := none, indexes := none
    query := none, time_reference := none, logstore_index_mappings := none
    source := none, topic := none, pool_size := none, batch_size := none
    wait_time_in_secs := none, auto_creation := some true }

/-! ### Helper lemmas about the reconciliation loop -/

/-- Every record appended by the reconciliation loop has a key that was not
in `task_map`. -/
lemma reconcile_pair_not_mem (m : String → String) (keys : List (String × Nat)) :
    ∀ (fresh : List FreshTask) (cnt : Nat) (u : Task),
      u ∈ reconcile m keys cnt fresh → pairOf u ∉ keys := by
  intro fresh
  induction fresh with
  | nil => intro cnt u hu; simp [reconcile] at hu
  | cons t rest ih =>
    intro cnt u hu
    by_cases hk : pairOfFresh t ∈ keys
    · rw [reconcile, if_pos hk] at hu
      exact ih cnt u hu
    · rw [reconcile, if_neg hk] at hu
      rcases List.mem_cons.mp hu with rfl | h
      · simpa [pairOf, pairOfFresh] using hk
      · exact ih (cnt + 1) u h

/-- After one reconciliation pass, every fresh key is accounted for: it was
already in `task_map` or it is the key of an appended record. -/
lemma reconcile_covers (m : String → String) :
    ∀ (fresh : List FreshTask) (keys : List (String × Nat)) (cnt : Nat)
      (t : FreshTask), t ∈ fresh →
      pairOfFresh t ∈ keys ∨
        pairOfFresh t ∈ (reconcile m keys cnt fresh).map pairOf := by
  intro fresh
  induction fresh with
  | nil => intro keys cnt t ht; simp at ht
  | cons s rest ih =>
    intro keys cnt t ht
    rcases List.mem_cons.mp ht with rfl | hmem
    · by_cases hk : pairOfFresh t ∈ keys
      · exact Or.inl hk
      · refine Or.inr ?_
        rw [reconcile, if_neg hk]
        simp [pairOf, pairOfFresh]
    · by_cases hk : pairOfFresh s ∈ keys
      · rw [reconcile, if_pos hk]
        exact ih keys cnt t hmem
      · rw [reconcile, if_neg hk]
        rcases ih keys (cnt + 1) t hmem with h | h
        · exact Or.inl h
        · refine Or.inr ?_
          simp only [List.map_cons, List.mem_cons]
          exact Or.inr h

/-- If every fresh key is already in `task_map`, the loop appends nothing. -/
lemma reconcile_eq_nil (m : String → String) (keys : List (String × Nat)) :
    ∀ (fresh : List FreshTask) (cnt : Nat),
      (∀ t ∈ fresh, pairOfFresh t ∈ keys) → reconcile m keys cnt fresh = [] := by
  intro fresh
  induction fresh with
  | nil => intro cnt _; rfl
  | cons t rest ih =>
    intro cnt h
    rw [reconcile, if_pos (h t (List.mem_cons_self t rest))]
    exact ih cnt fun s hs => h s (List.mem_cons_of_mem t hs)

/-- Every record appended by the loop takes its index and shard from some
fresh task of the input list. -/
lemma reconcile_src (m : String → String) (keys : List (String × Nat)) :
    ∀ (fresh : List FreshTask) (cnt : Nat) (u : Task),
      u ∈ reconcile m keys cnt fresh →
      ∃ ft ∈ fresh, u.es_index = ft.es_index ∧ u.es_shard = ft.es_shard := by
  intro fresh
  induction fresh with
  | nil => intro cnt u hu; simp [reconcile] at hu
  | cons t rest ih =>
    intro cnt u hu
    by_cases hk : pairOfFresh t ∈ keys
    · rw [reconcile, if_pos hk] at hu
      obtain ⟨ft, hft, he⟩ := ih cnt u hu
      exact ⟨ft, List.mem_cons_of_mem t hft, he⟩
    · rw [reconcile, if_neg hk] at hu
      rcases List.mem_cons.mp hu with rfl | h
      · exact ⟨t, List.mem_cons_self t rest, rfl, rfl⟩
      · obtain ⟨ft, hft, he⟩ := ih (cnt + 1) u h
        exact ⟨ft, List.mem_cons_of_mem t hft, he⟩

/-- With an empty `task_map` the loop appends one record per fresh task,
with consecutive ids starting at the counter and the keys preserved in
order. -/
lemma reconcile_empty_keys (m : String → String) :
    ∀ (fresh : List FreshTask) (cnt : Nat),
      (reconcile m [] cnt fresh).map Task.id = List.range' cnt fresh.length ∧
      (reconcile m [] cnt fresh).map pairOf = fresh.map pairOfFresh := by
  intro fresh
  induction fresh with
  | nil => intro cnt; constructor <;> rfl
  | cons t rest ih =>
    intro cnt
    rw [reconcile, if_neg (List.not_mem_nil (pairOfFresh t))]
    obtain ⟨h1, h2⟩ := ih (cnt + 1)
    constructor
    · simp [List.range'_succ, h1]
    · simp [pairOf, pairOfFresh, h2]

/-- Any sequence of discovery runs only appends to the ledger, and every
appended record's key is new relative to the starting ledger. -/
lemma discoveryRuns_grows (runs : List ((String → String) × List FreshTask)) :
    ∀ L : List Task, ∃ s, discoveryRuns L runs = L ++ s ∧
      ∀ u ∈ s, pairOf u ∉ L.map pairOf := by
  induction runs with
  | nil =>
    intro L
    exact ⟨[], by simp [discoveryRuns], by simp⟩
  | cons r rs ih =>
    intro L
    obtain ⟨s, hs, hnot⟩ := ih (handle_cache r.1 L r.2)
    refine ⟨newTasks r.1 L r.2 ++ s, ?_, ?_⟩
    · have hstep : discoveryRuns L (r :: rs) =
          discoveryRuns (handle_cache r.1 L r.2) rs := rfl
      rw [hstep, hs, handle_cache, List.append_assoc]
    · intro u hu
      rcases List.mem_append.mp hu with h1 | h2
      · exact reconcile_pair_not_mem r.1 (L.map pairOf) r.2 L.length u h1
      · intro hmem
        apply hnot u h2
        rw [handle_cache, List.map_append]
        exact List.mem_append_left _ hmem

/-! ### Claim theorems -/

/-- C1: over any sequence of discovery runs, each with its own mapping rules
and freshly discovered shard list, a task record already in the ledger stays
in the ledger, and no record of the resulting ledger carries its
`(source_index, source_shard)` key other than the records the starting
ledger already had — so its `id` and `destination_store` are never changed
or reassigned, whatever the later runs' mapping rules resolve to. -/
theorem task_identity_stable
    (runs : List ((String → String) × List FreshTask)) (L : List Task)
    (t : Task) (h : t ∈ L) :
    t ∈ discoveryRuns L runs ∧
      ∀ u ∈ discoveryRuns L runs, pairOf u = pairOf t → u ∈ L := by
  obtain ⟨s, hs, hnot⟩ := discoveryRuns_grows runs L
  constructor
  · rw [hs]; exact List.mem_append_left s h
  · intro u hu hpair
    rw [hs] at hu
    rcases List.mem_append.mp hu with h1 | h2
    · exact h1
    · exact absurd (hpair ▸ List.mem_map_of_mem pairOf h) (hnot u h2)

/-- Witness for C1 at a concrete ledger and a concrete two-run sequence
whose mapping rules differ from the ledger's recorded destination. -/
theorem task_identity_stable_instance :
    (⟨"a", 0, 0, "s"⟩ : Task) ∈
      discoveryRuns [⟨"a", 0, 0, "s"⟩]
        [(fun _ => "t", [⟨"a", 0⟩, ⟨"b", 1⟩]), (fun _ => "u", [⟨"a", 0⟩])] :=
  (task_identity_stable
    [(fun _ => "t", [⟨"a", 0⟩, ⟨"b", 1⟩]), (fun _ => "u", [⟨"a", 0⟩])]
    [⟨"a", 0, 0, "s"⟩] ⟨"a", 0, 0, "s"⟩ (List.mem_singleton.mpr rfl)).1

/-- C2: a second discovery run over the same shard topology and the ledger
file written by the first run returns (and rewrites) exactly the first run's
ledger: no new records, no new ids, no duplicates. -/
theorem rediscovery_idempotent (idx : Option String)
    (data : List (List ShardItem)) (ledger : Option (List Task))
    (m : String → String) :
    discover_tasks idx data (some (discover_tasks idx data ledger m)) m =
      discover_tasks idx data ledger m := by
  unfold discover_tasks
  have hnil : newTasks m
      (loadLedger (some (handle_cache m (loadLedger ledger)
        (discoverShards idx data))))
      (discoverShards idx data) = [] := by
    apply reconcile_eq_nil
    intro t ht
    rcases reconcile_covers m (discoverShards idx data)
        ((loadLedger ledger).map pairOf) (loadLedger ledger).length t ht with
      h | h
    · rw [loadLedger, handle_cache, List.map_append]
      exact List.mem_append_left _ h
    · rw [loadLedger, handle_cache, List.map_append]
      exact List.mem_append_right _ h
  rw [handle_cache, hnil, List.append_nil, loadLedger]

/-- C9: a corrupted or unreadable ledger (`none`, the parse-failure case) is
not fatal: discovery behaves exactly as with the empty ledger of a first run
(a missing file reads as `[]`), and assigns fresh consecutive ids starting
from zero to every discovered shard pair. -/
theorem corrupted_ledger_fresh_start (idx : Option String)
    (data : List (List ShardItem)) (m : String → String) :
    discover_tasks idx data none m = discover_tasks idx data (some []) m ∧
    (discover_tasks idx data none m).map Task.id =
      List.range (discoverShards idx data).length ∧
    (discover_tasks idx data none m).map pairOf =
      (discoverShards idx data).map pairOfFresh := by
  obtain ⟨h1, h2⟩ := reconcile_empty_keys m (discoverShards idx data) 0
  refine ⟨rfl, ?_, ?_⟩
  · rw [List.range_eq_range']
    simpa [discover_tasks, handle_cache, newTasks, loadLedger] using h1
  · simpa [discover_tasks, handle_cache, newTasks, loadLedger] using h2

/-- C10: within one run, a never-before-seen pair occurring twice in the
fresh list is appended twice — `task_map` is not extended during the loop —
producing two ledger records with the same key and distinct consecutive
ids. -/
theorem intra_run_duplicates (m : String → String) (old : List Task)
    (t : FreshTask) (rest : List FreshTask)
    (h : pairOfFresh t ∉ old.map pairOf) :
    ∃ l, handle_cache m old (t :: t :: rest) =
      old ++ { es_index := t.es_index, es_shard := t.es_shard,
               id := old.length, logstore := m t.es_index } ::
        { es_index := t.es_index, es_shard := t.es_shard,
          id := old.length + 1, logstore := m t.es_index } :: l :=
  ⟨reconcile m (old.map pairOf) (old.length + 2) rest,
    by rw [handle_cache, newTasks, reconcile, if_neg h, reconcile, if_neg h]⟩

/-- Witness for C10: an empty ledger and the pair `("a", 0)` discovered
twice yields two records with ids 0 and 1. -/
theorem intra_run_duplicates_instance :
    ∃ l, handle_cache (fun _ => "store") [] [⟨"a", 0⟩, ⟨"a", 0⟩] =
      [] ++ { es_index := "a", es_shard := 0, id := 0, logstore := "store" } ::
        { es_index := "a", es_shard := 0, id := 1, logstore := "store" } :: l :=
  intra_run_duplicates (fun _ => "store") [] ⟨"a", 0⟩ [] (by simp)

/-! ### The aggregation loop and the worker -/

/-- Folding the aggregation step counts exactly the `finished`, `dropped`
and `failed` results on top of the starting state and never touches
`total`. -/
lemma foldl_tallyStep (results : List Checkpoint) :
    ∀ s : Tally, results.foldl tallyStep s =
      { total := s.total,
        finished := s.finished + results.count Checkpoint.finished,
        dropped := s.dropped + results.count Checkpoint.dropped,
        failed := s.failed + results.count Checkpoint.failed } := by
  induction results with
  | nil => intro s; simp
  | cons r rest ih =>
    intro s
    cases r <;>
      simp [tallyStep, ih, List.count_cons] <;> omega

/-- The four status counts of a result list add up to its length. -/
lemma count_statuses (l : List Checkpoint) :
    l.count Checkpoint.finished + l.count Checkpoint.dropped +
      l.count Checkpoint.failed + l.count Checkpoint.interrupted = l.length := by
  induction l with
  | nil => rfl
  | cons r rest ih =>
    cases r <;> simp [List.count_cons] <;> omega

/-- C5: the aggregation loop counts only `finished`, `dropped` and `failed`
results; an `interrupted` result is consumed without error but increments no
counter, so when every future completed (one result per task) and at least
one was `interrupted`, the tally ends with
`finished + dropped + failed < total`. -/
theorem interrupted_uncounted (results : List Checkpoint) (total : Nat)
    (hmem : Checkpoint.interrupted ∈ results)
    (hlen : results.length = total) :
    (aggregate total results).total = total ∧
    (aggregate total results).finished = results.count Checkpoint.finished ∧
    (aggregate total results).dropped = results.count Checkpoint.dropped ∧
    (aggregate total results).failed = results.count Checkpoint.failed ∧
    (aggregate total results).finished + (aggregate total results).dropped +
      (aggregate total results).failed < total := by
  have hagg := foldl_tallyStep results
    { total := total, finished := 0, dropped := 0, failed := 0 }
  have hsum := count_statuses results
  have hpos : 0 < results.count Checkpoint.interrupted :=
    List.count_pos_iff.mpr hmem
  rw [aggregate, hagg]
  refine ⟨rfl, by simp, by simp, by simp, ?_⟩
  simp only
  omega

/-- Witness for C5: two tasks, one finished and one interrupted; the tally
counts a single completion out of two. -/
theorem interrupted_uncounted_instance :
    (aggregate 2 [Checkpoint.interrupted, Checkpoint.finished]).finished +
        (aggregate 2 [Checkpoint.interrupted, Checkpoint.finished]).dropped +
        (aggregate 2 [Checkpoint.interrupted, Checkpoint.finished]).failed
      < 2 :=
  (interrupted_uncounted [Checkpoint.interrupted, Checkpoint.finished] 2
    (by decide) (by decide)).2.2.2.2

/-- C4: the claim says a zero-task discovery degenerates to a no-op run
reporting `total: 0`; the code instead computes
`pool_size = min(pool_size, 0) = 0` and hands it to
`ProcessPoolExecutor(max_workers=0)`, which raises `ValueError` before the
aggregation loop runs, so `migrate` raises instead of returning a tally. -/
theorem zero_tasks_value_error (poolCfg : Nat) (results : List Checkpoint) :
    migrate poolCfg [] results =
      Except.error "ValueError: max_workers must be greater than 0" := by
  simp [migrate]

/-- C8: when the shutdown flag file exists at entry, the worker returns
`interrupted` with an empty effect trace — no destination-write client, no
source-read client, no remote transfer; by contrast a worker that starts
performs all three effects. -/
theorem shutdown_short_circuit (r : Checkpoint) :
    migration_worker true r = (Checkpoint.interrupted, []) ∧
    (migration_worker false r).2 =
      [WorkerEffect.buildLogstoreClient, WorkerEffect.buildEsClient,
       WorkerEffect.runTask] :=
  ⟨rfl, rfl⟩

/-! ### Shard selection -/

/-- C7: every freshly selected task comes from a shard entry whose state is
`STARTED` and whose copy is primary, and an entry in any other state, or a
replica copy, never passes the selection test — however many copies of the
shard the topology reports. -/
theorem primary_only_selection (idx : Option String)
    (data : List (List ShardItem)) :
    (∀ t ∈ discoverShards idx data, ∃ item ∈ data.flatten,
      item.state = "STARTED" ∧ item.primary = true ∧
      t.es_index = item.index ∧ t.es_shard = item.shard) ∧
    ∀ item : ShardItem, ¬(item.state = "STARTED" ∧ item.primary = true) →
      keepShard idx item = false := by
  constructor
  · intro t ht
    rw [discoverShards] at ht
    obtain ⟨item, hitem, rfl⟩ := List.mem_map.mp ht
    obtain ⟨hmem, hkeep⟩ := List.mem_filter.mp hitem
    refine ⟨item, hmem, ?_, ?_, rfl, rfl⟩ <;>
    · unfold keepShard at hkeep
      split at hkeep
      · exact absurd hkeep (by simp)
      · simp only [Bool.and_eq_true, beq_iff_eq] at hkeep
        first
        | exact hkeep.1
        | exact hkeep.2
  · intro item hni
    unfold keepShard
    split
    · rfl
    · by_cases h1 : item.state = "STARTED"
      · have h2 : item.primary = false := by
          rcases Bool.eq_false_or_eq_true item.primary with h | h
          · exact absurd ⟨h1, h⟩ hni
          · exact h
        simp [h2]
      · simp [h1]

/-- Witness for C7: a relocating primary copy is rejected by the selection
test. -/
theorem primary_only_selection_instance :
    keepShard none
      { index := "a", shard := 0, state := "RELOCATING", primary := true } =
      false :=
  (primary_only_selection none []).2
    { index := "a", shard := 0, state := "RELOCATING", primary := true }
    (by simp)

/-- C6: when no index filter is configured (the value is `None` or the empty
string), no task record created by the run has a source index name starting
with `'.'`; when an explicit non-empty filter is given, the internal-index
rule does not apply and a started primary shard of any index — dotted or
not — becomes a task. -/
theorem internal_index_exclusion (idx : Option String)
    (data : List (List ShardItem)) (ledger : Option (List Task))
    (m : String → String) (h : noIndexFilter idx = true) :
    (∀ t ∈ newTasks m (loadLedger ledger) (discoverShards idx data),
      t.es_index.startsWith "." = false) ∧
    ∀ (s : String) (m' : String → String) (item : ShardItem),
      s.isEmpty = false → item.state = "STARTED" → item.primary = true →
      discover_tasks (some s) [[item]] none m' =
        [{ es_index := item.index, es_shard := item.shard, id := 0,
           logstore := m' item.index }] := by
  constructor
  · intro t ht
    obtain ⟨ft, hft, hei, _⟩ :=
      reconcile_src m ((loadLedger ledger).map pairOf)
        (discoverShards idx data) (loadLedger ledger).length t ht
    rw [discoverShards] at hft
    obtain ⟨item, hitem, rfl⟩ := List.mem_map.mp hft
    obtain ⟨_, hkeep⟩ := List.mem_filter.mp hitem
    by_cases hdot : item.index.startsWith "." = true
    · rw [keepShard, h] at hkeep
      simp [hdot] at hkeep
    · rw [hei]
      exact Bool.eq_false_iff.mpr hdot
  · intro s m' item hs hst hp
    simp [discover_tasks, discoverShards, handle_cache, newTasks, loadLedger,
      keepShard, noIndexFilter, hs, hst, hp, reconcile, pairOfFresh]

/-- Witness for C6: under an explicit non-empty index filter, a started
primary shard of an internal dotted index does become a task. -/
theorem internal_index_exclusion_instance :
    discover_tasks (some "a")
      [[{ index := ".kib", shard := 0, state := "STARTED", primary := true }]]
      none (fun _ => "ls") =
      [{ es_index := ".kib", es_shard := 0, id := 0, logstore := "ls" }] :=
  (internal_index_exclusion none [] none (fun _ => "ls") rfl).2 "a"
    (fun _ => "ls")
    { index := ".kib", shard := 0, state := "STARTED", primary := true }
    rfl rfl rfl

/-! ### Configuration override semantics (C3) -/

/-- A concrete cached `config.json` content used to exercise the override
semantics. -/
def cachedSample : ConfigCont :=
  { endpoint := some "cn-hangzhou.log.aliyuncs.com"
    project_name := some "proj"
    hosts := some "localhost:9200"
    indexes := none
    query := some "q"
    time_reference := some "ts_old"
    logstore_index_mappings := none
    source := some "src"
    topic := none
    pool_size := some 5
    batch_size := some 500
    wait_time_in_secs := some 30
    auto_creation := some false }

/-- C3 counterexample: against a cached configuration, (i) calling the
constructor with the Python default arguments — `auto_creation` not
explicitly supplied, defaulting to `True` — overwrites the cached
`auto_creation = False`; (ii) an explicitly supplied empty string is not
`None`, so it overwrites the cached `query`; (iii) an explicitly supplied
non-empty `time_reference` never reaches the effective configuration, which
keeps the cached value. Each contradicts the claim that exactly the
explicitly-supplied non-empty fields override and all others keep the cached
value. -/
theorem config_override_counterexample :
    (migrationConfigInit (some cachedSample) pythonDefaults).auto_creation ≠
      cachedSample.auto_creation ∧
    (migrationConfigInit (some cachedSample)
        { pythonDefaults with query := some "" }).query ≠ cachedSample.query ∧
    (migrationConfigInit (some cachedSample)
        { pythonDefaults with
          time_reference := some "ts_new" }).time_reference ≠
      some "ts_new" := by
  refine ⟨?_, ?_, ?_⟩ <;>
    simp [migrationConfigInit, initWithCache, overrideWith, pythonDefaults,
      cachedSample]

/-- C3 amended: over an existing cache, a constructor argument overrides
the cached value exactly when it is not `None` (whether it was supplied
explicitly or, as for `auto_creation = True`, is the Python default, and
whether or not it is empty), a `None` argument keeps the cached value, and
`time_reference` always keeps the cached value. -/
theorem config_override_cached (cached p : ConfigCont) :
    ((migrationConfigInit (some cached) p).time_reference =
      cached.time_reference) ∧
    (p.endpoint = none →
      (migrationConfigInit (some cached) p).endpoint = cached.endpoint) ∧
    (∀ v, p.endpoint = some v →
      (migrationConfigInit (some cached) p).endpoint = some v) ∧
    (p.project_name = none →
      (migrationConfigInit (some cached) p).project_name =
        cached.project_name) ∧
    (∀ v, p.project_name = some v →
      (migrationConfigInit (some cached) p).project_name = some v) ∧
    (p.hosts = none →
      (migrationConfigInit (some cached) p).hosts = cached.hosts) ∧
    (∀ v, p.hosts = some v →
      (migrationConfigInit (some cached) p).hosts = some v) ∧
    (p.indexes = none →
      (migrationConfigInit (some cached) p).indexes = cached.indexes) ∧
    (∀ v, p.indexes = some v →
      (migrationConfigInit (some cached) p).indexes = some v) ∧
    (p.query = none →
      (migrationConfigInit (some cached) p).query = cached.query) ∧
    (∀ v, p.query = some v →
      (migrationConfigInit (some cached) p).query = some v) ∧
    (p.logstore_index_mappings = none →
      (migrationConfigInit (some cached) p).logstore_index_mappings =
        cached.logstore_index_mappings) ∧
    (∀ v, p.logstore_index_mappings = some v →
      (migrationConfigInit (some cached) p).logstore_index_mappings =
        some v) ∧
    (p.source = none →
      (migrationConfigInit (some cached) p).source = cached.source) ∧
    (∀ v, p.source = some v →
      (migrationConfigInit (some cached) p).source = some v) ∧
    (p.topic = none →
      (migrationConfigInit (some cached) p).topic = cached.topic) ∧
    (∀ v, p.topic = some v →
      (migrationConfigInit (some cached) p).topic = some v) ∧
    (p.pool_size = none →
      (migrationConfigInit (some cached) p).pool_size = cached.pool_size) ∧
    (∀ v, p.pool_size = some v →
      (migrationConfigInit (some cached) p).pool_size = some v) ∧
    (p.batch_size = none →
      (migrationConfigInit (some cached) p).batch_size = cached.batch_size) ∧
    (∀ v, p.batch_size = some v →
      (migrationConfigInit (some cached) p).batch_size = some v) ∧
    (p.wait_time_in_secs = none →
      (migrationConfigInit (some cached) p).wait_time_in_secs =
        cached.wait_time_in_secs) ∧
    (∀ v, p.wait_time_in_secs = some v →
      (migrationConfigInit (some cached) p).wait_time_in_secs = some v) ∧
    (p.auto_creation = none →
      (migrationConfigInit (some cached) p).auto_creation =
        cached.auto_creation) ∧
    (∀ v, p.auto_creation = some v →
      (migrationConfigInit (some cached) p).auto_creation = some v) := by
  refine ⟨rfl, ?_, ?_, ?_, ?_, ?_, ?_, ?_, ?_, ?_, ?_, ?_, ?_, ?_, ?_, ?_,
    ?_, ?_, ?_, ?_, ?_, ?_, ?_, ?_, ?_⟩ <;>
  first
  | (intro h
     simp [migrationConfigInit, initWithCache, overrideWith, h])
  | (intro v h
     simp [migrationConfigInit, initWithCache, overrideWith, h])

/-- Witness for C3 (amended): with the Python default arguments, the cached
endpoint survives the constructor. -/
theorem config_override_cached_instance :
    (migrationConfigInit (some cachedSample) pythonDefaults).endpoint =
      cachedSample.endpoint :=
  (config_override_cached cachedSample pythonDefaults).2.1 rfl

end ESMigration
